import Mathlib

/-!
Verification of the timestamp-correlation core of `gopro-gps-extractor.py`.

The program reads the JSON document produced by the external metadata
reader, scans the first document's stream values in stored order, and
either accepts a record bundle (building five metadata-write directives)
or reports that no metadata was found.  The definitions below are a
shallow embedding of that source, value by value and line by line; the
theorems settle the specification's claims about it.
-/

set_option autoImplicit false

namespace GoproGps

/-- A JSON-decoded Python value as met by the scan loop: the values
`json.loads` can produce from the metadata reader's output.  A float is
carried by the two observations the program makes of it — its `int()`
truncation toward zero and its `str()` rendering; `pynone` is Python's
`None`, which is also what `dict.get` returns for an absent key. -/
inductive PyVal where
  | str (s : String)
  | int (n : Int)
  | float (trunc : Int) (render : String)
  | bool (b : Bool)
  | pynone
  | list (xs : List PyVal)
  | dict (fields : List (String × PyVal))

/-- Exceptions the embedded code can raise. -/
inductive PyErr where
  | typeError
  | valueError
  | attributeError
  | indexError
deriving DecidableEq

/-- Strip leading and trailing whitespace, as Python `int(str)` does
before reading the literal. -/
def pyStrip (cs : List Char) : List Char :=
  ((cs.dropWhile Char.isWhitespace).reverse.dropWhile Char.isWhitespace).reverse

/-- Decimal digits to a natural number. -/
def digitsToNat (cs : List Char) : Nat :=
  cs.foldl (fun a c => a * 10 + (c.toNat - 48)) 0

/-- Python `int(s)` for a base-10 string: optional surrounding
whitespace, an optional sign, then a nonempty run of decimal digits.
(Numeric-literal underscores and non-ASCII digits are not modelled.)
`none` stands for `ValueError`. -/
def pyIntOfString (s : String) : Option Int :=
  match pyStrip s.toList with
  | '-' :: cs =>
      if cs ≠ [] && cs.all Char.isDigit then some (-(digitsToNat cs : Int)) else none
  | '+' :: cs =>
      if cs ≠ [] && cs.all Char.isDigit then some (digitsToNat cs : Int) else none
  | cs =>
      if cs ≠ [] && cs.all Char.isDigit then some (digitsToNat cs : Int) else none

/-- Python `int(s)` as an `Except`: `ValueError` on a bad literal. -/
def pyInt (s : String) : Except PyErr Int :=
  match pyIntOfString s with
  | some n => Except.ok n
  | none => Except.error PyErr.valueError

/-- Python `int(x)` on a JSON-decoded value: ints pass through, floats
truncate toward zero (the model carries that truncation), bools are the
ints 0 and 1, strings are parsed as integer literals (`ValueError` when
unparseable), and `None` / lists / dicts raise `TypeError`. -/
def pyToInt : PyVal → Except PyErr Int
  | PyVal.int n => Except.ok n
  | PyVal.float tr _ => Except.ok tr
  | PyVal.bool b => Except.ok (if b then 1 else 0)
  | PyVal.str s => pyInt s
  | PyVal.pynone => Except.error PyErr.typeError
  | PyVal.list _ => Except.error PyErr.typeError
  | PyVal.dict _ => Except.error PyErr.typeError

mutual

/-- Python `repr()` of a value (what `str()` delegates to for everything
but strings; escaping inside nested string literals is not modelled,
none of the program's observable behaviour depends on it). -/
def pyRepr : PyVal → String
  | PyVal.str s => "'" ++ s ++ "'"
  | PyVal.int n => toString n
  | PyVal.float _ r => r
  | PyVal.bool b => if b then "True" else "False"
  | PyVal.pynone => "None"
  | PyVal.list xs => "[" ++ pyReprList xs ++ "]"
  | PyVal.dict fs => "\x7b" ++ pyReprFields fs ++ "\x7d"

def pyReprList : List PyVal → String
  | [] => ""
  | [x] => pyRepr x
  | x :: y :: xs => pyRepr x ++ ", " ++ pyReprList (y :: xs)

def pyReprFields : List (String × PyVal) → String
  | [] => ""
  | [(k, v)] => "'" ++ k ++ "': " ++ pyRepr v
  | (k, v) :: f :: fs => "'" ++ k ++ "': " ++ pyRepr v ++ ", " ++ pyReprFields (f :: fs)

end

/-- Python `str()` as used by f-string interpolation: strings unchanged,
everything else through `repr`-style rendering. -/
def pyStr : PyVal → String
  | PyVal.str s => s
  | v => pyRepr v

/-- Python `dict.get(key)`: the stored value, `None` when absent. -/
def dictGet (fs : List (String × PyVal)) (k : String) : PyVal :=
  match fs.find? (fun p => p.1 == k) with
  | some p => p.2
  | none => PyVal.pynone

/-- True when a stream value is a plain string (`isinstance(value, str)`,
src line 139). -/
def PyVal.isStr : PyVal → Bool
  | PyVal.str _ => true
  | _ => false

/-- Python `s.split(':')`: split on every colon, keeping empty segments
(the result is never empty). -/
def splitColonAux : List Char → List Char → List String
  | [], acc => [String.mk acc.reverse]
  | c :: rest, acc =>
      if c = ':' then String.mk acc.reverse :: splitColonAux rest []
      else splitColonAux rest (c :: acc)

def pySplitColon (s : String) : List String :=
  splitColonAux s.toList []

/-- Python `xs[i]`: `IndexError` when the index is out of range. -/
def listIndex (xs : List String) (i : Nat) : Except PyErr String :=
  match xs.get? i with
  | some s => Except.ok s
  | none => Except.error PyErr.indexError

/-- `Video.__init__` (src lines 27-32): split the timestamp on `:` and
combine the first three segments as `int(t[0])*60*60 + int(t[1])*60 +
int(t[2])`.  `t[i]` raises `IndexError` when the segment is absent and
`int` raises `ValueError` on a non-integer segment; either aborts
construction (the spec's `FormatError`). -/
def timestampSeconds (timestamp : String) : Except PyErr Int :=
  let t := pySplitColon timestamp
  match listIndex t 0 with
  | Except.error e => Except.error e
  | Except.ok s0 =>
  match pyInt s0 with
  | Except.error e => Except.error e
  | Except.ok h =>
  match listIndex t 1 with
  | Except.error e => Except.error e
  | Except.ok s1 =>
  match pyInt s1 with
  | Except.error e => Except.error e
  | Except.ok m =>
  match listIndex t 2 with
  | Except.error e => Except.error e
  | Except.ok s2 =>
  match pyInt s2 with
  | Except.error e => Except.error e
  | Except.ok s => Except.ok (h * 60 * 60 + m * 60 + s)

/-- The five metadata-write directives built on acceptance (src lines
148-154): latitude, longitude, altitude, model from `DeviceName`, and
the constant make. -/
def buildData (fs : List (String × PyVal)) : List String :=
  [ "-GPSLatitude*=" ++ pyStr (dictGet fs "GPSLatitude"),
    "-GPSLongitude*=" ++ pyStr (dictGet fs "GPSLongitude"),
    "-GPSAltitude*=" ++ pyStr (dictGet fs "GPSAltitude"),
    "-model*=" ++ pyStr (dictGet fs "DeviceName"),
    "-make*=GoPro" ]

/-- Body of the `try` block for one stream value (src lines 139-155).
`Except.ok (some data)` is acceptance (set `found_entry`, build `data`,
`break`); `Except.ok none` means the scan continues; `Except.error e` is
a raised exception.  A plain string is skipped; on a dict,
`int(value.get('TimeStamp'))` is attempted and the candidate is accepted
when `args.extract or t == obj.timestamp_seconds`; `.get` on any other
value raises `AttributeError`. -/
def tryBody (extract : Bool) (target : Int) (v : PyVal) : Except PyErr (Option (List String)) :=
  match v with
  | PyVal.str _ => Except.ok none
  | PyVal.dict fs =>
      match pyToInt (dictGet fs "TimeStamp") with
      | Except.error e => Except.error e
      | Except.ok t =>
          if extract || t == target then Except.ok (some (buildData fs))
          else Except.ok none
  | _ => Except.error PyErr.attributeError

/-- The exception handlers of the scan loop (src lines 156-159):
`AttributeError` is logged and swallowed, `TypeError` is passed silently;
anything else — in particular the `ValueError` that `int` raises on an
unparseable string — propagates out of the loop. -/
def caught : PyErr → Bool
  | PyErr.attributeError => true
  | PyErr.typeError => true
  | _ => false

/-- True when the scan moves past this stream value without accepting it
and without raising an uncaught exception. -/
def stepContinues (extract : Bool) (target : Int) (v : PyVal) : Bool :=
  match tryBody extract target v with
  | Except.ok none => true
  | Except.ok (some _) => false
  | Except.error e => caught e

/-- Outcome of the scan loop: a match with its directives, exhaustion of
the document, or an uncaught exception aborting the run. -/
inductive SelectOutcome where
  | found (data : List String)
  | notFound
  | uncaught (e : PyErr)
deriving DecidableEq

/-- The scan loop over `documents[0].values()` (src lines 137-159). -/
def selectLoop (extract : Bool) (target : Int) : List PyVal → SelectOutcome
  | [] => SelectOutcome.notFound
  | v :: rest =>
      match tryBody extract target v with
      | Except.ok (some data) => SelectOutcome.found data
      | Except.ok none => selectLoop extract target rest
      | Except.error e =>
          if caught e then selectLoop extract target rest
          else SelectOutcome.uncaught e

/-- The correlation engine: scan the first document's stream values in
their stored (insertion) order. -/
def select (doc : List (String × PyVal)) (extract : Bool) (target : Int) : SelectOutcome :=
  selectLoop extract target (doc.map Prod.snd)

/-- What main does after the scan (src lines 161-169): on a match,
`update_file` is called with the directives; on no match, the
"No metadata found" message is logged; in either case the temporary
video file is closed when the extract path was taken.  An uncaught
exception from the loop skips all of it. -/
structure RunEnd where
  updateCall : Option (List String)
  loggedNoMetadata : Bool
  tempFileClosed : Bool
  crashed : Bool
deriving DecidableEq

def mainFinish (extract : Bool) : SelectOutcome → RunEnd
  | SelectOutcome.found data =>
      { updateCall := some data, loggedNoMetadata := false,
        tempFileClosed := extract, crashed := false }
  | SelectOutcome.notFound =>
      { updateCall := none, loggedNoMetadata := true,
        tempFileClosed := extract, crashed := false }
  | SelectOutcome.uncaught _ =>
      { updateCall := none, loggedNoMetadata := false,
        tempFileClosed := false, crashed := true }

/-- The correlation-and-report tail of `main` (src lines 137-169). -/
def mainCorrelate (doc : List (String × PyVal)) (extract : Bool) (target : Int) : RunEnd :=
  mainFinish extract (select doc extract target)

/-- File-system events of a run, for the temporary-file claims. -/
inductive FsEvent where
  | created (path : String)
  | deleted (path : String)
deriving DecidableEq

/-- The path ffmpeg writes the trimmed clip to (src line 43): the
`NamedTemporaryFile` name with ".mp4" appended. -/
def clipPath (name : String) : String := name ++ ".mp4"

/-- File events of `Video.extract_video` (src lines 42-61):
`NamedTemporaryFile()` creates the placeholder file at `name`, and
ffmpeg writes the clip to `name + ".mp4"`. -/
def extractVideoEvents (name : String) : List FsEvent :=
  [FsEvent.created name, FsEvent.created (clipPath name)]

/-- File events at the end of `main` on the extract path (src lines
167-169): `temp_video_file.close()` deletes the placeholder file at
`name` (delete-on-close semantics of `NamedTemporaryFile`). -/
def cleanupEvents (name : String) : List FsEvent :=
  [FsEvent.deleted name]

/-- File events of a normally completing extract-path run. -/
def extractRunEvents (name : String) : List FsEvent :=
  extractVideoEvents name ++ cleanupEvents name

/-- Success test after the amended C3 characterization: at least three
colon-separated segments whose first three each parse as integers. -/
def threeIntSegs (s : String) : Bool :=
  let t := pySplitColon s
  match t[0]?, t[1]?, t[2]? with
  | some a, some b, some c =>
      ((pyIntOfString a).isSome && (pyIntOfString b).isSome) && (pyIntOfString c).isSome
  | _, _, _ => false

/-- Whether timestamp construction succeeded. -/
def isOkE (r : Except PyErr Int) : Bool :=
  match r with
  | Except.ok _ => true
  | Except.error _ => false

/-! ## Helper lemmas about the scan loop -/

theorem selectLoop_cons_continue (e : Bool) (t : Int) (v : PyVal) (rest : List PyVal)
    (h : stepContinues e t v = true) :
    selectLoop e t (v :: rest) = selectLoop e t rest := by
  cases htb : tryBody e t v with
  | ok o =>
    cases o with
    | none => simp [selectLoop, htb]
    | some d => simp [stepContinues, htb] at h
  | error err =>
    have hc : caught err = true := by simpa [stepContinues, htb] using h
    simp [selectLoop, htb, hc]

theorem selectLoop_cons_accept (e : Bool) (t tv : Int) (fs : List (String × PyVal))
    (rest : List PyVal)
    (h : pyToInt (dictGet fs "TimeStamp") = Except.ok tv) (hc : (e || tv == t) = true) :
    selectLoop e t (PyVal.dict fs :: rest) = SelectOutcome.found (buildData fs) := by
  simp [selectLoop, tryBody, h, hc]

theorem selectLoop_append_continues (e : Bool) (t : Int) :
    ∀ (pre rest : List PyVal), pre.all (stepContinues e t) = true →
      selectLoop e t (pre ++ rest) = selectLoop e t rest
  | [], _, _ => rfl
  | v :: pre, rest, h => by
    rw [List.all_cons, Bool.and_eq_true] at h
    rw [List.cons_append, selectLoop_cons_continue e t v _ h.1]
    exact selectLoop_append_continues e t pre rest h.2

theorem selectLoop_found_inv (e : Bool) (t : Int) :
    ∀ (vs : List PyVal) (d : List String), selectLoop e t vs = SelectOutcome.found d →
      ∃ pre fs post tv, vs = pre ++ PyVal.dict fs :: post ∧
        pre.all (stepContinues e t) = true ∧
        pyToInt (dictGet fs "TimeStamp") = Except.ok tv ∧
        (e || tv == t) = true ∧ d = buildData fs
  | [], d, h => by simp [selectLoop] at h
  | v :: rest, d, h => by
    cases htb : tryBody e t v with
    | ok o =>
      cases o with
      | some data =>
        have hd : data = d := by simpa [selectLoop, htb] using h
        cases v with
        | dict fs =>
          cases hpt : pyToInt (dictGet fs "TimeStamp") with
          | error err => simp [tryBody, hpt] at htb
          | ok tv =>
            by_cases hcond : (e || tv == t) = true
            · have hdata : buildData fs = data := by
                simpa [tryBody, hpt, hcond] using htb
              exact ⟨[], fs, rest, tv, rfl, rfl, hpt, hcond, by rw [← hd, ← hdata]⟩
            · simp [tryBody, hpt, hcond] at htb
        | str s => simp [tryBody] at htb
        | int n => simp [tryBody] at htb
        | float a b => simp [tryBody] at htb
        | bool b => simp [tryBody] at htb
        | pynone => simp [tryBody] at htb
        | list xs => simp [tryBody] at htb
      | none =>
        obtain ⟨pre, fs, post, tv, hvs, hall, hpt, hcond, hdd⟩ :=
          selectLoop_found_inv e t rest d (by simpa [selectLoop, htb] using h)
        exact ⟨v :: pre, fs, post, tv, by rw [hvs]; rfl,
          by simp [List.all_cons, stepContinues, htb, hall], hpt, hcond, hdd⟩
    | error err =>
      cases hce : caught err with
      | true =>
        obtain ⟨pre, fs, post, tv, hvs, hall, hpt, hcond, hdd⟩ :=
          selectLoop_found_inv e t rest d (by simpa [selectLoop, htb, hce] using h)
        exact ⟨v :: pre, fs, post, tv, by rw [hvs]; rfl,
          by simp [List.all_cons, stepContinues, htb, hce, hall], hpt, hcond, hdd⟩
      | false => simp [selectLoop, htb, hce] at h

theorem tryBody_true_target (t₁ t₂ : Int) (v : PyVal) :
    tryBody true t₁ v = tryBody true t₂ v := by
  cases v with
  | dict fs => cases hpt : pyToInt (dictGet fs "TimeStamp") <;> simp [tryBody, hpt]
  | str s => rfl
  | int n => rfl
  | float a b => rfl
  | bool b => rfl
  | pynone => rfl
  | list xs => rfl

theorem selectLoop_true_target (t₁ t₂ : Int) :
    ∀ vs : List PyVal, selectLoop true t₁ vs = selectLoop true t₂ vs
  | [] => rfl
  | v :: rest => by
    have ih := selectLoop_true_target t₁ t₂ rest
    simp only [selectLoop, tryBody_true_target t₁ t₂ v, ih]

theorem selectLoop_all_str (e : Bool) (t : Int) :
    ∀ vs : List PyVal, vs.all PyVal.isStr = true →
      selectLoop e t vs = SelectOutcome.notFound
  | [], _ => rfl
  | v :: rest, h => by
    rw [List.all_cons, Bool.and_eq_true] at h
    cases v with
    | str s =>
      rw [selectLoop_cons_continue e t _ rest (by simp [stepContinues, tryBody])]
      exact selectLoop_all_str e t rest h.2
    | int n => simp [PyVal.isStr] at h
    | float a b => simp [PyVal.isStr] at h
    | bool b => simp [PyVal.isStr] at h
    | pynone => simp [PyVal.isStr] at h
    | list xs => simp [PyVal.isStr] at h
    | dict fs => simp [PyVal.isStr] at h

theorem clipPath_ne (name : String) : clipPath name ≠ name := by
  intro h
  have hlen := congrArg String.length h
  have h4 : (".mp4" : String).length = 4 := rfl
  rw [clipPath, String.length_append, h4] at hlen
  omega

/-! ## Claim theorems -/

/-- Claim C1 (amended): with match_any false, whenever every stream
scanned before some bundle neither accepts nor raises an uncaught
exception, and that bundle's TimeStamp converts to exactly the target,
the scan returns that bundle's directives and stops there (the streams
after it play no role); conversely anything the scan returns comes from
the first-encountered bundle whose converted TimeStamp equals the target
exactly — no nearest-neighbour match is ever returned.  The claim's
unconditional form fails: an earlier stream whose TimeStamp is a string
that is not an integer literal aborts the scan. -/
theorem select_first_exact_match :
    (∀ (pre post : List PyVal) (fs : List (String × PyVal)) (target : Int),
        pre.all (stepContinues false target) = true →
        pyToInt (dictGet fs "TimeStamp") = Except.ok target →
        selectLoop false target (pre ++ PyVal.dict fs :: post) =
          SelectOutcome.found (buildData fs)) ∧
    (∀ (vs : List PyVal) (target : Int) (d : List String),
        selectLoop false target vs = SelectOutcome.found d →
        ∃ pre fs post, vs = pre ++ PyVal.dict fs :: post ∧
          pre.all (stepContinues false target) = true ∧
          pyToInt (dictGet fs "TimeStamp") = Except.ok target ∧
          d = buildData fs) := by
  constructor
  · intro pre post fs target hall hpt
    rw [selectLoop_append_continues false target pre _ hall]
    exact selectLoop_cons_accept false target target fs post hpt (by simp)
  · intro vs target d h
    obtain ⟨pre, fs, post, tv, hvs, hall, hpt, hcond, hd⟩ :=
      selectLoop_found_inv false target vs d h
    have htv : tv = target := by simpa using hcond
    exact ⟨pre, fs, post, hvs, hall, htv ▸ hpt, hd⟩

/-- Claim C1 witness: a string stream followed by the exactly matching
bundle; the scan returns that bundle's directives. -/
theorem select_first_exact_match_witness :
    selectLoop false 42 [PyVal.str "meta", PyVal.dict [("TimeStamp", PyVal.int 42)]] =
      SelectOutcome.found (buildData [("TimeStamp", PyVal.int 42)]) :=
  select_first_exact_match.1 [PyVal.str "meta"] [] [("TimeStamp", PyVal.int 42)] 42
    (by decide) rfl

/-- Claim C1 counterexample: the first-encountered bundle whose time
value equals the target 7 is Stream2, but the scan never returns it —
Stream1's TimeStamp is the string "three", `int` raises ValueError, and
the exception is not caught, so the run aborts instead. -/
theorem select_first_exact_match_cex :
    select [("Stream1", PyVal.dict [("TimeStamp", PyVal.str "three")]),
            ("Stream2", PyVal.dict [("TimeStamp", PyVal.int 7),
                                    ("GPSLatitude", PyVal.int 1)])] false 7 =
      SelectOutcome.uncaught PyErr.valueError := by decide

/-- Claim C2 (amended): a candidate whose TimeStamp is absent (so
`dict.get` yields None) or is a non-string value `int` rejects with
TypeError is skipped silently and the scan continues to later streams;
but a TimeStamp that is a string not parseable as an integer raises
ValueError, which no handler catches, so the scan aborts — such a
malformed stream does prevent selecting a valid later bundle. -/
theorem timestamp_unreadable_policy :
    (∀ (fs : List (String × PyVal)) (rest : List PyVal) (e : Bool) (t : Int),
        pyToInt (dictGet fs "TimeStamp") = Except.error PyErr.typeError →
        selectLoop e t (PyVal.dict fs :: rest) = selectLoop e t rest) ∧
    (∀ (fs : List (String × PyVal)) (rest : List PyVal) (e : Bool) (t : Int),
        pyToInt (dictGet fs "TimeStamp") = Except.error PyErr.valueError →
        selectLoop e t (PyVal.dict fs :: rest) = SelectOutcome.uncaught PyErr.valueError) := by
  constructor
  · intro fs rest e t h
    exact selectLoop_cons_continue e t _ rest (by simp [stepContinues, tryBody, h, caught])
  · intro fs rest e t h
    simp [selectLoop, tryBody, h, caught]

/-- Claim C2 witness: a bundle with no TimeStamp at all is skipped and
the scan continues with the remaining streams. -/
theorem timestamp_unreadable_policy_witness :
    selectLoop false 3 [PyVal.dict []] = selectLoop false 3 [] :=
  timestamp_unreadable_policy.1 [] [] false 3 rfl

/-- Claim C2 counterexample: the malformed BadStream (TimeStamp "oops")
aborts the scan with an uncaught ValueError, so the valid matching
GoodStream after it is never selected — the claim said it could not be
prevented. -/
theorem timestamp_unreadable_policy_cex :
    select [("BadStream", PyVal.dict [("TimeStamp", PyVal.str "oops")]),
            ("GoodStream", PyVal.dict [("TimeStamp", PyVal.int 12),
                                       ("DeviceName", PyVal.str "Hero")])] false 12 =
      SelectOutcome.uncaught PyErr.valueError := by decide

/-- Claim C3 (amended): timestamp construction succeeds exactly when the
input splits on ":" into at least three segments whose first three each
parse as (possibly signed) Python integers — segments beyond the third
are ignored and negative components are accepted — and on success the
offset is hours*3600 + minutes*60 + seconds of those segments; any other
input fails (IndexError or ValueError, the spec's FormatError) with no
result produced. -/
theorem timestampSeconds_characterization :
    (∀ s : String, isOkE (timestampSeconds s) = threeIntSegs s) ∧
    (∀ (s s0 s1 s2 : String) (h m sec : Int),
        (pySplitColon s)[0]? = some s0 → pyIntOfString s0 = some h →
        (pySplitColon s)[1]? = some s1 → pyIntOfString s1 = some m →
        (pySplitColon s)[2]? = some s2 → pyIntOfString s2 = some sec →
        timestampSeconds s = Except.ok (h * 60 * 60 + m * 60 + sec)) := by
  constructor
  · intro s
    cases h0 : (pySplitColon s)[0]? with
    | none => simp [timestampSeconds, threeIntSegs, listIndex, pyInt, h0, isOkE]
    | some s0 =>
      cases h1 : (pySplitColon s)[1]? with
      | none =>
        cases hp0 : pyIntOfString s0 <;>
          simp [timestampSeconds, threeIntSegs, listIndex, pyInt, h0, h1, hp0, isOkE]
      | some s1 =>
        cases h2 : (pySplitColon s)[2]? with
        | none =>
          cases hp0 : pyIntOfString s0 <;> cases hp1 : pyIntOfString s1 <;>
            simp [timestampSeconds, threeIntSegs, listIndex, pyInt, h0, h1, h2, hp0, hp1,
              isOkE]
        | some s2 =>
          cases hp0 : pyIntOfString s0 <;> cases hp1 : pyIntOfString s1 <;>
            cases hp2 : pyIntOfString s2 <;>
            simp [timestampSeconds, threeIntSegs, listIndex, pyInt, h0, h1, h2, hp0, hp1,
              hp2, isOkE]
  · intro s s0 s1 s2 h m sec h0 hp0 h1 hp1 h2 hp2
    simp [timestampSeconds, listIndex, pyInt, h0, hp0, h1, hp1, h2, hp2]

/-- Claim C3 witness: a well-formed timestamp parses to the arithmetic
sum of its components. -/
theorem timestampSeconds_characterization_witness :
    timestampSeconds "01:02:03" = Except.ok (1 * 60 * 60 + 2 * 60 + 3) :=
  timestampSeconds_characterization.2 "01:02:03" "01" "02" "03" 1 2 3
    (by decide) (by decide) (by decide) (by decide) (by decide) (by decide)

/-- Claim C3 counterexample: "1:2:3:4" has four colon-separated segments
and "0:0:-75" has a negative segment, yet neither fails — the fourth
segment is ignored and the negative component is accepted, contradicting
the claim that parsing fails unless there are exactly three segments
each a non-negative integer. -/
theorem timestampSeconds_characterization_cex :
    timestampSeconds "1:2:3:4" = Except.ok 3723 ∧
    timestampSeconds "0:0:-75" = Except.ok (-75) :=
  ⟨rfl, rfl⟩

/-- Claim C4: for every record bundle the builder emits exactly five
directives, in the fixed order latitude, longitude, altitude, model,
make, and the make directive is the literal "-make*=GoPro" whatever the
record contains. -/
theorem buildData_five_fixed_directives (fs : List (String × PyVal)) :
    (buildData fs).length = 5 ∧
    ∃ lat lon alt model : String,
      buildData fs =
        [ "-GPSLatitude*=" ++ lat, "-GPSLongitude*=" ++ lon,
          "-GPSAltitude*=" ++ alt, "-model*=" ++ model, "-make*=GoPro" ] :=
  ⟨rfl, _, _, _, _, rfl⟩

/-- Claim C5 (amended): in match_any mode the scan's outcome is entirely
independent of the target offset, and it accepts the first bundle whose
TimeStamp converts to an integer, whatever that integer is, provided no
earlier stream raised an uncaught exception.  The claim's unconditional
form fails: a preceding stream whose TimeStamp is a non-integer string
aborts the scan before the first scannable bundle is reached. -/
theorem select_match_any_first_scannable :
    (∀ (t₁ t₂ : Int) (vs : List PyVal), selectLoop true t₁ vs = selectLoop true t₂ vs) ∧
    (∀ (pre post : List PyVal) (fs : List (String × PyVal)) (target tv : Int),
        pre.all (stepContinues true target) = true →
        pyToInt (dictGet fs "TimeStamp") = Except.ok tv →
        selectLoop true target (pre ++ PyVal.dict fs :: post) =
          SelectOutcome.found (buildData fs)) := by
  constructor
  · exact selectLoop_true_target
  · intro pre post fs target tv hall hpt
    rw [selectLoop_append_continues true target pre _ hall]
    exact selectLoop_cons_accept true target tv fs post hpt (by simp)

/-- Claim C5 witness: in match_any mode a bundle whose time value 5 does
not equal the target 0 is still accepted first. -/
theorem select_match_any_first_scannable_witness :
    selectLoop true 0 [PyVal.dict [("TimeStamp", PyVal.int 5)]] =
      SelectOutcome.found (buildData [("TimeStamp", PyVal.int 5)]) :=
  select_match_any_first_scannable.2 [] [] [("TimeStamp", PyVal.int 5)] 0 5 (by decide) rfl

/-- Claim C5 counterexample: in match_any mode the first scannable
bundle is B (time value 3), but the scan aborts on A's string TimeStamp
"later" with an uncaught ValueError instead of returning B. -/
theorem select_match_any_first_scannable_cex :
    select [("A", PyVal.dict [("TimeStamp", PyVal.str "later")]),
            ("B", PyVal.dict [("TimeStamp", PyVal.int 3)])] true 0 =
      SelectOutcome.uncaught PyErr.valueError := by decide

/-- Claim C6: a field missing from the accepted record still yields its
directive — `dict.get` passes None through and the directive is emitted
with the rendered absent value, so the writer receives all five
directives (here shown for a record with no altitude). -/
theorem buildData_missing_field_still_emitted (fs : List (String × PyVal))
    (h : (fs.find? (fun p => p.1 == "GPSAltitude")).isNone = true) :
    (buildData fs).length = 5 ∧
    (buildData fs).get? 2 = some "-GPSAltitude*=None" := by
  rw [Option.isNone_iff_eq_none] at h
  refine ⟨rfl, ?_⟩
  simp [buildData, dictGet, h, pyStr, pyRepr]

/-- Claim C6 witness: a record carrying only a TimeStamp still produces
the altitude directive (with the absent value) among its five. -/
theorem buildData_missing_field_still_emitted_witness :
    (buildData [("TimeStamp", PyVal.int 9)]).length = 5 ∧
    (buildData [("TimeStamp", PyVal.int 9)]).get? 2 = some "-GPSAltitude*=None" :=
  buildData_missing_field_still_emitted [("TimeStamp", PyVal.int 9)] (by decide)

/-- Claim C7: on the extract path the clip ffmpeg writes lives at the
temporary name with ".mp4" appended, and the run's only deletion is of
the bare placeholder name — the clip file itself is created but never
deleted, even on a normally completing run. -/
theorem extract_clip_never_deleted (name : String) :
    (extractRunEvents name).contains (FsEvent.created (clipPath name)) = true ∧
    (extractRunEvents name).contains (FsEvent.deleted (clipPath name)) = false := by
  have hne : clipPath name ≠ name := clipPath_ne name
  constructor
  · simp [extractRunEvents, extractVideoEvents, cleanupEvents]
  · simp [extractRunEvents, extractVideoEvents, cleanupEvents, hne]

/-- Claim C8: a document whose stream values are all plain strings never
yields a match — the scan skips every value and returns NotFound,
whatever the target offset and whichever mode. -/
theorem select_all_strings_notFound (doc : List (String × PyVal)) (e : Bool) (t : Int)
    (h : (doc.map Prod.snd).all PyVal.isStr = true) :
    select doc e t = SelectOutcome.notFound :=
  selectLoop_all_str e t _ h

/-- Claim C8 witness: a two-stream all-string document returns NotFound
in match_any mode at an arbitrary target. -/
theorem select_all_strings_notFound_witness :
    select [("A", PyVal.str "x"), ("B", PyVal.str "y")] true 99 = SelectOutcome.notFound :=
  select_all_strings_notFound [("A", PyVal.str "x"), ("B", PyVal.str "y")] true 99 (by decide)

/-- Claim C9: when the scan returns NotFound the run completes normally
and untouched — no update directives are handed to the writer, the
"No metadata found" message is logged, the temporary file is still
closed on the extract path, and nothing crashes. -/
theorem notFound_run_completes_untouched (doc : List (String × PyVal)) (e : Bool) (t : Int)
    (h : select doc e t = SelectOutcome.notFound) :
    mainCorrelate doc e t = ⟨none, true, e, false⟩ := by
  simp [mainCorrelate, mainFinish, h]

/-- Claim C9 witness: a document with a single string stream yields
NotFound and the reported no-op run end. -/
theorem notFound_run_completes_untouched_witness :
    mainCorrelate [("Main", PyVal.str "meta")] false 0 = ⟨none, true, false, false⟩ :=
  notFound_run_completes_untouched [("Main", PyVal.str "meta")] false 0 (by decide)

/-- Claim C10 (amended): in match_any mode the scan only ever accepts a
bundle whose TimeStamp field is present and converts to an integer; a
bundle whose TimeStamp is absent or rejected with TypeError is skipped
and the scan continues.  The claim's "skipped" fails for a TimeStamp
that is a non-integer string: that raises an uncaught ValueError and
aborts the scan instead. -/
theorem match_any_accept_requires_int_timestamp :
    (∀ (vs : List PyVal) (target : Int) (d : List String),
        selectLoop true target vs = SelectOutcome.found d →
        ∃ pre fs post tv, vs = pre ++ PyVal.dict fs :: post ∧
          (fs.find? (fun p => p.1 == "TimeStamp")).isSome = true ∧
          pyToInt (dictGet fs "TimeStamp") = Except.ok tv ∧
          d = buildData fs) ∧
    (∀ (fs : List (String × PyVal)) (rest : List PyVal) (target : Int),
        pyToInt (dictGet fs "TimeStamp") = Except.error PyErr.typeError →
        selectLoop true target (PyVal.dict fs :: rest) = selectLoop true target rest) := by
  constructor
  · intro vs target d h
    obtain ⟨pre, fs, post, tv, hvs, hall, hpt, hcond, hd⟩ :=
      selectLoop_found_inv true target vs d h
    refine ⟨pre, fs, post, tv, hvs, ?_, hpt, hd⟩
    cases hf : fs.find? (fun p => p.1 == "TimeStamp") with
    | some p => rfl
    | none => simp [dictGet, hf, pyToInt] at hpt
  · intro fs rest target h
    exact selectLoop_cons_continue true target _ rest
      (by simp [stepContinues, tryBody, h, caught])

/-- Claim C10 witness: in match_any mode a bundle whose TimeStamp is
None is skipped and the scan continues past it. -/
theorem match_any_accept_requires_int_timestamp_witness :
    selectLoop true 8 [PyVal.dict [("TimeStamp", PyVal.pynone)]] = selectLoop true 8 [] :=
  match_any_accept_requires_int_timestamp.2 [("TimeStamp", PyVal.pynone)] [] 8 rfl

/-- Claim C10 counterexample: in match_any mode a bundle whose TimeStamp
is the string "oops2" (no integer interpretation) is not skipped — the
scan aborts with an uncaught ValueError where skipping would have given
NotFound. -/
theorem match_any_accept_requires_int_timestamp_cex :
    select [("A", PyVal.dict [("TimeStamp", PyVal.str "oops2")])] true 0 =
      SelectOutcome.uncaught PyErr.valueError := by decide

end GoproGps
